import Mathlib

/-!
Verification of the test-artifact lifecycle manager of the Bureau_1440
end-to-end test suite.

The Lean definitions below are a shallow embedding of the Python sources:

* `src/pytest_plugins/options.py` — boolean parsing of environment values and
  resolution of video/trace artifact preferences from CLI flags + env vars;
* `src/helpers/files.py` — filename sanitization and artifact paths;
* `src/helpers/media.py` — `finalize_video_artifact`, which persists or
  deletes a recorded video handle;
* `src/pytest_plugins/playwright.py` — the `page` and `context` fixture
  teardown logic (diagnostic capture, page close, video finalization,
  tracing stop, context close).

Modelling conventions:

* Python strings are Lean `String`s; `str.strip().lower()` is modelled over
  `String.data` with ASCII semantics (`pyStripLower`), which coincides with
  CPython on the ASCII token sets compared against in the source.
* `os.getenv` results are `Option String`; Python truthiness of a string
  (`if env_video:`) is `s ≠ ""` on the `some` case.
* Side effects (saving/attaching/deleting a video, stopping tracing,
  closing page/context, logging a swallowed exception) are reified as an
  event trace (`Ev`); a fixture teardown is a pure function from its inputs
  to the list of events it performs, in order.  Exceptions raised by the
  browser engine during tracing stop / context close are modelled by
  boolean inputs (`stop_raises`, `close_raises`): the corresponding
  `try/except` block then yields a log event instead of the normal events,
  and execution continues.
* Filesystem paths are strings; the session artifact root
  (`AppConfig.artifacts_dir`, from `ARTIFACTS_ROOT`) is an explicit
  parameter `artifacts`.
-/

/-! ## options.py: token sets and preference records -/

/-- Source: `options.py` line 7. -/
def TRUTHY_VALUES : List String := ["1", "true", "yes", "on", "enabled"]

/-- Source: `options.py` line 8. -/
def FALSY_VALUES : List String := ["0", "false", "no", "off", "disabled"]

/-- Source: `options.py` line 9. -/
def VIDEO_KEEP_VALUES : List String := ["all", "always", "keep"]

/-- Source: `options.py` line 10. -/
def TRACE_MODES : List String := ["off", "on", "retain-on-failure"]

/-- Source: `options.py` `VideoPreferences` dataclass. -/
structure VideoPreferences where
  record : Bool
  keep_on_pass : Bool
deriving DecidableEq, Repr

/-- Source: `options.py` `TracePreferences` dataclass. -/
structure TracePreferences where
  enabled : Bool
  retain_on_failure : Bool
deriving DecidableEq, Repr

/-! ## Python string normalization (ASCII model of `str.strip().lower()`) -/

/-- ASCII whitespace recognized by Python `str.strip()`. -/
def pyIsSpace (c : Char) : Bool :=
  c == ' ' || c == '\t' || c == '\n' || c == '\r' || c == '\x0b' || c == '\x0c'

/-- ASCII model of Python `str.lower()` on a single character. -/
def pyLowerChar (c : Char) : Char :=
  if 'A' ≤ c && c ≤ 'Z' then Char.ofNat (c.toNat + 32) else c

/-- Model of Python `value.strip().lower()`. -/
def pyStripLower (s : String) : String :=
  ⟨(((s.data.dropWhile pyIsSpace).reverse.dropWhile pyIsSpace).reverse).map pyLowerChar⟩

/-! ## options.py: `_parse_bool` and the preference resolvers -/

/-- Source: `options.py` lines 31-39 (`_parse_bool`).  `None` input and
unrecognized strings yield `none` ("undecided"). -/
def _parse_bool (value : Option String) : Option Bool :=
  match value with
  | none => none
  | some v =>
    let normalized := pyStripLower v
    if normalized ∈ TRUTHY_VALUES then some true
    else if normalized ∈ FALSY_VALUES then some false
    else none

/-- Source: `options.py` lines 42-63 (`_resolve_video_preferences`).
`cli_video` / `cli_keep_on_pass` are the `--video` / `--keep-video-on-pass`
option values; `env_video` / `env_keep` are `os.getenv("PLAYWRIGHT_VIDEO")`
and `os.getenv("PLAYWRIGHT_KEEP_VIDEO_ON_PASS")`.  The Python guard
`if env_video:` is false for `None` and for the empty string. -/
def _resolve_video_preferences (cli_video cli_keep_on_pass : Bool)
    (env_video env_keep : Option String) : VideoPreferences :=
  let rk : Bool × Bool :=
    match env_video with
    | some s =>
      if s = "" then (cli_video, cli_keep_on_pass)
      else
        let normalized := pyStripLower s
        match _parse_bool (some normalized) with
        | some parsed => (parsed, cli_keep_on_pass)
        | none =>
          if normalized ∈ VIDEO_KEEP_VALUES then (true, true)
          else (true, cli_keep_on_pass)
    | none => (cli_video, cli_keep_on_pass)
  match _parse_bool env_keep with
  | some keep_override => ⟨rk.1, keep_override⟩
  | none => ⟨rk.1, rk.2⟩

/-- Source: `options.py` lines 67-76: the `mode` local of
`_resolve_trace_preferences` after the env override.  `cli_mode` is the
`--pw-trace` option value; `env_trace` is `os.getenv("PLAYWRIGHT_TRACE")`.
The Python guard `if parsed:` takes the branch only when `_parse_bool`
returned `True`. -/
def _resolve_trace_mode (cli_mode : String) (env_trace : Option String) : String :=
  match env_trace with
  | some s =>
    if s = "" then cli_mode
    else
      let normalized := pyStripLower s
      if normalized ∈ TRACE_MODES then normalized
      else
        match _parse_bool (some normalized) with
        | some true =>
          if normalized ∈ VIDEO_KEEP_VALUES then "retain-on-failure" else "on"
        | _ => cli_mode
  | none => cli_mode

/-- Source: `options.py` lines 66-80 (`_resolve_trace_preferences`): the final
record built from the resolved mode (lines 78-80). -/
def _resolve_trace_preferences (cli_mode : String) (env_trace : Option String) :
    TracePreferences :=
  let mode := _resolve_trace_mode cli_mode env_trace
  ⟨mode != "off", mode == "retain-on-failure"⟩

/-! ## files.py: sanitization and artifact paths -/

/-- The character class `[A-Za-z0-9._-]` of the regex in
`files.py` `safe_filename`. -/
def isSafeFilenameChar (c : Char) : Bool :=
  ('A' ≤ c && c ≤ 'Z') || ('a' ≤ c && c ≤ 'z') || ('0' ≤ c && c ≤ '9') ||
  c == '.' || c == '_' || c == '-'

/-- Source: `files.py` lines 17-20 (`safe_filename`):
`re.sub(r"[^A-Za-z0-9._-]", "_", text)` replaces every character outside the
class with an underscore, character by character. -/
def safe_filename (text : String) : String :=
  ⟨text.data.map (fun c => if isSafeFilenameChar c then c else '_')⟩

/-- Source: `files.py` lines 29-33 (`get_artifact_path`): the directory for an
artifact type under the session artifact root. -/
def get_artifact_path (artifacts artifact_type : String) : String :=
  artifacts ++ "/" ++ artifact_type

/-- Source: `playwright.py` lines 21-22 (`_trace_path`). -/
def _trace_path (artifacts nodeid : String) : String :=
  get_artifact_path artifacts "traces" ++ "/" ++ safe_filename nodeid ++ ".zip"

/-- Source: `media.py` line 24: the target path of a kept video. -/
def video_artifact_path (artifacts nodeid : String) : String :=
  get_artifact_path artifacts "videos" ++ "/" ++ safe_filename nodeid ++ ".webm"

/-! ## Test phase reports (pytest `TestReport` as consumed by the code) -/

/-- The attributes of a pytest phase report that `playwright.py` reads:
`rep.failed`, `rep.skipped` and `rep.outcome`. -/
structure Report where
  failed : Bool
  skipped : Bool
  outcome : String
deriving DecidableEq, Repr

/-- Source: `playwright.py` lines 123-124 (`_is_failed`). -/
def _is_failed (r : Report) : Bool := r.failed

/-- Source: `playwright.py` lines 126-127 (`_is_skipped`). -/
def _is_skipped (r : Report) : Bool := r.skipped || r.outcome == "skipped"

/-- The phase reports that exist, in the order `(rep_setup, rep_call,
rep_teardown)`; models the `if rep is not None` filter of lines 129-130. -/
def existing_reports (rep_setup rep_call rep_teardown : Option Report) : List Report :=
  [rep_setup, rep_call, rep_teardown].filterMap id

/-- Source: `playwright.py` line 129 (`failed_any`). -/
def failed_any (rep_setup rep_call rep_teardown : Option Report) : Bool :=
  (existing_reports rep_setup rep_call rep_teardown).any _is_failed

/-- Source: `playwright.py` line 130 (`skipped_any`). -/
def skipped_any (rep_setup rep_call rep_teardown : Option Report) : Bool :=
  (existing_reports rep_setup rep_call rep_teardown).any _is_skipped

/-! ## Effect traces of the teardown code -/

/-- One observable side effect of the teardown code, in the order it is
performed.  `saveAs` / `attachFile` / `deleteHandle` are `video.save_as`,
`allure.attach.file` and `video.delete` in `media.py`; the tracing and close
events are the calls in the `context` fixture finalizer of `playwright.py`;
the `log...` events are the `logger.warning` calls of swallowed
exceptions. -/
inductive Ev where
  | captureScreenshot : Ev
  | captureHtml : Ev
  | closePage : Ev
  | saveAs : String → Ev
  | attachFile : String → Ev
  | deleteHandle : Ev
  | tracingStopDiscard : Ev
  | tracingStopSave : String → Ev
  | logTraceStopFailure : Ev
  | contextClose : Ev
  | logCloseFailure : Ev
deriving DecidableEq, Repr

/-- Source: `media.py` lines 12-39 (`finalize_video_artifact`).  The video
handle carries no data we need, so it is `Option Unit`; the result is the
event trace paired with the Python return value (`path | None`). -/
def finalize_video_artifact (video : Option Unit) (artifacts nodeid : String)
    (keep attach_on_keep : Bool) : List Ev × Option String :=
  match video with
  | none => ([], none)
  | some _ =>
    if keep then
      let video_path := video_artifact_path artifacts nodeid
      ([Ev.saveAs video_path]
        ++ (if attach_on_keep then [Ev.attachFile video_path] else [])
        ++ [Ev.deleteHandle],
       some video_path)
    else ([Ev.deleteHandle], none)

/-- Source: `playwright.py` lines 113-168: the teardown part of the `page`
fixture.  `video` is the handle fetched from `page.video` before the page is
closed (line 149); the second component is `finalize_video_artifact`'s return
value when it was called (`none` when no finalization happened).  The
`elif video_obj:` branch of line 167 finalizes a handle recorded while
`record_video_enabled` is false with `keep=False`. -/
def page_teardown (rep_setup rep_call rep_teardown : Option Report)
    (record_video_enabled keep_video_on_pass : Bool) (video : Option Unit)
    (artifacts nodeid : String) : List Ev × Option String :=
  let fa := failed_any rep_setup rep_call rep_teardown
  let sa := skipped_any rep_setup rep_call rep_teardown
  let capture_needed := fa || sa
  let captureEvs := if capture_needed then [Ev.captureScreenshot, Ev.captureHtml] else []
  let fin : List Ev × Option String :=
    if record_video_enabled then
      finalize_video_artifact video artifacts nodeid
        (fa || sa || keep_video_on_pass) (fa || sa)
    else if video.isSome then
      finalize_video_artifact video artifacts nodeid false false
    else ([], none)
  (captureEvs ++ [Ev.closePage] ++ fin.1, fin.2)

/-- Source: `playwright.py` lines 89-110: the `finally` block of the `context`
fixture.  `last_failed` is the flag the page teardown stored on the context
(line 158, read back at line 95); `stop_raises` / `close_raises` model the
browser engine raising inside `context.tracing.stop` / `context.close`, which
the code logs and swallows. -/
def context_teardown (trace_enabled retain_on_failure last_failed tracing_started
    stop_raises close_raises : Bool) (artifacts nodeid : String) : List Ev :=
  (if trace_enabled && tracing_started then
    (if stop_raises then [Ev.logTraceStopFailure]
     else if retain_on_failure && !last_failed then [Ev.tracingStopDiscard]
     else [Ev.tracingStopSave (_trace_path artifacts nodeid)])
   else [])
  ++ [Ev.contextClose]
  ++ (if close_raises then [Ev.logCloseFailure] else [])

/-- The complete per-test teardown trace.  pytest finalizes fixtures in
reverse setup order, so the `page` fixture teardown runs first and the
`context` fixture finalizer second; the `last_failed` flag consumed by the
context finalizer is the `failed_any` the page teardown just stored. -/
def full_teardown (rep_setup rep_call rep_teardown : Option Report)
    (record_video_enabled keep_video_on_pass : Bool) (video : Option Unit)
    (trace_enabled retain_on_failure tracing_started stop_raises close_raises : Bool)
    (artifacts nodeid : String) : List Ev :=
  (page_teardown rep_setup rep_call rep_teardown record_video_enabled
      keep_video_on_pass video artifacts nodeid).1
    ++ context_teardown trace_enabled retain_on_failure
        (failed_any rep_setup rep_call rep_teardown) tracing_started
        stop_raises close_raises artifacts nodeid

/-- The teardown phase an event belongs to: diagnostics capture (0), page
close (1), video finalization (2), tracing stop (3), context close (4). -/
def stage : Ev → Nat
  | Ev.captureScreenshot => 0
  | Ev.captureHtml => 0
  | Ev.closePage => 1
  | Ev.saveAs _ => 2
  | Ev.attachFile _ => 2
  | Ev.deleteHandle => 2
  | Ev.tracingStopDiscard => 3
  | Ev.tracingStopSave _ => 3
  | Ev.logTraceStopFailure => 3
  | Ev.contextClose => 4
  | Ev.logCloseFailure => 4

/-- Recognizes the `video.save_as` event. -/
def isSaveEv : Ev → Bool
  | Ev.saveAs _ => true
  | _ => false

/-- Recognizes the `video.delete` event (releasing the recording handle). -/
def isDeleteEv : Ev → Bool
  | Ev.deleteHandle => true
  | _ => false

/-- A trace in which the video was explicitly persisted exactly once
(`video.save_as` called exactly once). -/
def persistedOnce (evs : List Ev) : Prop := evs.countP isSaveEv = 1

/-- A trace in which the video was deleted exactly once without ever being
persisted: `video.delete` called exactly once and `video.save_as` never.
(The spec calls the unconditional `video.delete()` after a successful
`save_as` "releasing the handle", not deletion of the artifact.) -/
def discardedOnce (evs : List Ev) : Prop :=
  evs.countP isSaveEv = 0 ∧ evs.countP isDeleteEv = 1

/-! Helper lemmas shared between the option-resolution theorems. -/

/-- The falsy set is disjoint from the truthy set, so `_parse_bool` is
well-defined as a three-way decision. -/
lemma falsy_not_truthy {x : String} (h : x ∈ FALSY_VALUES) : x ∉ TRUTHY_VALUES := by
  intro ht
  simp [FALSY_VALUES] at h
  rcases h with rfl | rfl | rfl | rfl | rfl <;> simp [TRUTHY_VALUES] at ht

/-- If the env value neither matches a known trace mode nor parses to a truthy
boolean, the mode stays at the CLI base. -/
lemma trace_mode_of_undecided (cli s : String) (hs : s ≠ "")
    (h1 : pyStripLower s ∉ TRACE_MODES)
    (h2 : _parse_bool (some (pyStripLower s)) ≠ some true) :
    _resolve_trace_mode cli (some s) = cli := by
  cases hp : _parse_bool (some (pyStripLower s)) with
  | none => simp only [_resolve_trace_mode, if_neg hs, if_neg h1, hp]
  | some b =>
    cases b with
    | false => simp only [_resolve_trace_mode, if_neg hs, if_neg h1, hp]
    | true => exact absurd hp h2

/-- Claim C8: `_parse_bool` returns `true` exactly when the stripped,
lowercased value is in the truthy set, `false` exactly when it is in the
falsy set, and the undecided value `none` for every other string and for
missing input. -/
theorem c8_parse_bool_characterization (s : String) :
    (_parse_bool (some s) = some true ↔ pyStripLower s ∈ TRUTHY_VALUES) ∧
    (_parse_bool (some s) = some false ↔ pyStripLower s ∈ FALSY_VALUES) ∧
    (_parse_bool (some s) = none ↔
      (pyStripLower s ∉ TRUTHY_VALUES ∧ pyStripLower s ∉ FALSY_VALUES)) ∧
    _parse_bool none = none := by
  by_cases h1 : pyStripLower s ∈ TRUTHY_VALUES
  · have h2 : pyStripLower s ∉ FALSY_VALUES := fun hf => falsy_not_truthy hf h1
    simp [_parse_bool, h1, h2]
  · by_cases h2 : pyStripLower s ∈ FALSY_VALUES
    · simp [_parse_bool, h1, h2]
    · simp [_parse_bool, h1, h2]

/-- Claim C9: filename sanitization is length-preserving, keeps every
character of the class `[A-Za-z0-9._-]` in place, replaces every character
outside the class by an underscore, and produces only characters of the
class. -/
theorem c9_safe_filename_sanitizes (s : String) :
    (safe_filename s).data.length = s.data.length ∧
    (∀ i : Nat, (safe_filename s).data[i]? =
      (s.data[i]?).map (fun c => if isSafeFilenameChar c then c else '_')) ∧
    (∀ c : Char, c ∈ (safe_filename s).data → isSafeFilenameChar c = true) := by
  refine ⟨by simp [safe_filename], fun i => by simp [safe_filename], ?_⟩
  intro c hc
  simp only [safe_filename, List.mem_map] at hc
  obtain ⟨a, _, ha⟩ := hc
  by_cases h : isSafeFilenameChar a
  · rw [← ha, if_pos h]; exact h
  · rw [← ha, if_neg h]; decide

/-- Witness for C9 at the spec example input `"tests/login::test[a/b]"`: the
output contains the underscore, which is in the safe class. -/
theorem c9_safe_filename_sanitizes_witness : isSafeFilenameChar '_' = true :=
  (c9_safe_filename_sanitizes "tests/login::test[a/b]").2.2 '_' (by decide)

/-- Claim C5: the `PLAYWRIGHT_TRACE` env value overrides the CLI `--pw-trace`
mode when (after stripping/lowercasing) it matches a known mode; otherwise,
when it parses to a truthy boolean, the mode becomes `retain-on-failure` if it
is in the video keep set and `on` otherwise; and the resolved preferences are
exactly `enabled = (mode != off)`, `retainOnFailure = (mode ==
retain-on-failure)` for the resolved mode. -/
theorem c5_trace_preferences_resolution (cli s : String) :
    (s ≠ "" → pyStripLower s ∈ TRACE_MODES →
      _resolve_trace_mode cli (some s) = pyStripLower s) ∧
    (s ≠ "" → pyStripLower s ∉ TRACE_MODES →
      _parse_bool (some (pyStripLower s)) = some true →
      _resolve_trace_mode cli (some s) =
        (if pyStripLower s ∈ VIDEO_KEEP_VALUES then "retain-on-failure" else "on")) ∧
    (∀ env : Option String, _resolve_trace_preferences cli env =
      ⟨_resolve_trace_mode cli env != "off",
       _resolve_trace_mode cli env == "retain-on-failure"⟩) := by
  refine ⟨?_, ?_, fun env => rfl⟩
  · intro hs h1
    simp only [_resolve_trace_mode, if_neg hs, if_pos h1]
  · intro hs h1 h2
    simp only [_resolve_trace_mode, if_neg hs, if_neg h1, h2]

/-- Witness for C5: `PLAYWRIGHT_TRACE=yes` with CLI mode `off` resolves to
mode `on`. -/
theorem c5_trace_preferences_resolution_witness :
    _resolve_trace_mode "off" (some "yes") = "on" := by
  have h := (c5_trace_preferences_resolution "off" "yes").2.1
    (by decide) (by decide) (by decide)
  rw [h]
  decide

/-- Claim C10: resolved trace preferences satisfy `retain_on_failure →
enabled`; an env value in the video keep set never changes the mode from the
CLI base (since the keep set is disjoint from the truthy set); and
`retain_on_failure` can only be true when the CLI flag, or the normalized env
value, is `retain-on-failure` itself. -/
theorem c10_trace_retain_invariant (cli : String) (env : Option String) :
    ((_resolve_trace_preferences cli env).retain_on_failure = true →
      (_resolve_trace_preferences cli env).enabled = true) ∧
    (∀ s, env = some s → pyStripLower s ∈ VIDEO_KEEP_VALUES →
      _resolve_trace_mode cli env = cli) ∧
    ((_resolve_trace_preferences cli env).retain_on_failure = true →
      cli = "retain-on-failure" ∨
        ∃ s, env = some s ∧ pyStripLower s = "retain-on-failure") ∧
    (∀ x ∈ VIDEO_KEEP_VALUES, x ∉ TRUTHY_VALUES) := by
  refine ⟨?_, ?_, ?_, by decide⟩
  · intro h
    have hm : _resolve_trace_mode cli env = "retain-on-failure" := by
      simpa [_resolve_trace_preferences] using h
    simp [_resolve_trace_preferences, hm]
  · rintro s rfl hk
    by_cases hs : s = ""
    · subst hs
      exact absurd hk (by decide)
    · have hmem := hk
      simp only [VIDEO_KEEP_VALUES, List.mem_cons, List.not_mem_nil, or_false] at hmem
      rcases hmem with h' | h' | h' <;>
        exact trace_mode_of_undecided cli s hs (by rw [h']; decide) (by rw [h']; decide)
  · intro h
    have hm : _resolve_trace_mode cli env = "retain-on-failure" := by
      simpa [_resolve_trace_preferences] using h
    cases env with
    | none =>
      left
      simpa [_resolve_trace_mode] using hm
    | some s =>
      by_cases hs : s = ""
      · left
        subst hs
        simpa [_resolve_trace_mode] using hm
      · by_cases h1 : pyStripLower s ∈ TRACE_MODES
        · right
          refine ⟨s, rfl, ?_⟩
          rw [← hm]
          simp only [_resolve_trace_mode, if_neg hs, if_pos h1]
        · cases hp : _parse_bool (some (pyStripLower s)) with
          | none =>
            left
            rw [← hm, trace_mode_of_undecided cli s hs h1 (by simp [hp])]
          | some b =>
            cases b with
            | false =>
              left
              rw [← hm, trace_mode_of_undecided cli s hs h1 (by simp [hp])]
            | true =>
              by_cases hkeep : pyStripLower s ∈ VIDEO_KEEP_VALUES
              · exfalso
                have hmem := hkeep
                simp only [VIDEO_KEEP_VALUES, List.mem_cons, List.not_mem_nil,
                  or_false] at hmem
                rcases hmem with h' | h' | h' <;> rw [h'] at hp <;>
                  exact absurd hp (by decide)
              · exfalso
                have : _resolve_trace_mode cli (some s) = "on" := by
                  simp only [_resolve_trace_mode, if_neg hs, if_neg h1, hp,
                    if_neg hkeep]
                rw [this] at hm
                exact absurd hm (by decide)

/-- Witness for C10: `PLAYWRIGHT_TRACE=keep` leaves CLI mode `off` unchanged,
and `--pw-trace=retain-on-failure` with no env yields enabled preferences. -/
theorem c10_trace_retain_invariant_witness :
    _resolve_trace_mode "off" (some "keep") = "off" ∧
    (_resolve_trace_preferences "retain-on-failure" none).enabled = true :=
  ⟨(c10_trace_retain_invariant "off" (some "keep")).2.1 "keep" rfl (by decide),
   (c10_trace_retain_invariant "retain-on-failure" none).1 (by decide)⟩

/-- Claim C6: a boolean-parseable `PLAYWRIGHT_VIDEO` sets `record` to that
boolean; a value in the keep set sets `record = true` and `keep_on_pass =
true`; any other non-empty value sets `record = true` leaving `keep_on_pass`
at its CLI value; and a boolean-parseable `PLAYWRIGHT_KEEP_VIDEO_ON_PASS`
overrides `keep_on_pass` regardless of how it was previously set. -/
theorem c6_video_preferences_resolution (cli_video cli_keep : Bool)
    (s : String) (env_keep : Option String) :
    (∀ b : Bool, s ≠ "" → _parse_bool (some (pyStripLower s)) = some b →
      (_resolve_video_preferences cli_video cli_keep (some s) env_keep).record = b) ∧
    (s ≠ "" → _parse_bool (some (pyStripLower s)) = none →
      pyStripLower s ∈ VIDEO_KEEP_VALUES →
      (_resolve_video_preferences cli_video cli_keep (some s) env_keep).record = true ∧
      (_parse_bool env_keep = none →
        (_resolve_video_preferences cli_video cli_keep (some s) env_keep).keep_on_pass
          = true)) ∧
    (s ≠ "" → _parse_bool (some (pyStripLower s)) = none →
      pyStripLower s ∉ VIDEO_KEEP_VALUES →
      (_resolve_video_preferences cli_video cli_keep (some s) env_keep).record = true ∧
      (_parse_bool env_keep = none →
        (_resolve_video_preferences cli_video cli_keep (some s) env_keep).keep_on_pass
          = cli_keep)) ∧
    (∀ env_video : Option String, ∀ k : Bool, _parse_bool env_keep = some k →
      (_resolve_video_preferences cli_video cli_keep env_video env_keep).keep_on_pass
        = k) := by
  refine ⟨?_, ?_, ?_, ?_⟩
  · intro b hs hp
    cases hko : _parse_bool env_keep with
    | none => simp [_resolve_video_preferences, if_neg hs, hp, hko]
    | some k => simp [_resolve_video_preferences, if_neg hs, hp, hko]
  · intro hs hp hk
    cases hko : _parse_bool env_keep with
    | none => simp [_resolve_video_preferences, if_neg hs, hp, hko, if_pos hk]
    | some k => simp [_resolve_video_preferences, if_neg hs, hp, hko, if_pos hk]
  · intro hs hp hk
    cases hko : _parse_bool env_keep with
    | none => simp [_resolve_video_preferences, if_neg hs, hp, hko, if_neg hk]
    | some k => simp [_resolve_video_preferences, if_neg hs, hp, hko, if_neg hk]
  · intro env_video k hko
    simp [_resolve_video_preferences, hko]

/-- Witness for C6: `PLAYWRIGHT_VIDEO=keep` with both CLI flags false and no
keep-on-pass env override resolves to `record = true`, `keep_on_pass =
true`. -/
theorem c6_video_preferences_resolution_witness :
    (_resolve_video_preferences false false (some "keep") none).record = true ∧
    (_resolve_video_preferences false false (some "keep") none).keep_on_pass = true := by
  have h := (c6_video_preferences_resolution false false "keep" none).2.1
    (by decide) (by decide) (by decide)
  exact ⟨h.1, h.2 rfl⟩

/-- Claim C1: with video recording enabled and a non-null video handle, the
page teardown keeps the video (saved to `<artifacts>/videos/<sanitized
nodeid>.webm`, with that path returned by the finalizer) iff `failedAny ∨
skippedAny ∨ keepOnPass`; it attaches it iff `failedAny ∨ skippedAny` (so a
passing test with `keepOnPass` gets its video saved but not attached); and
when not kept the handle is deleted and `none` is returned. -/
theorem c1_video_keep_attach_policy (rs rc rt : Option Report) (kop : Bool)
    (artifacts nodeid : String) (fa sa : Bool)
    (hfa : fa = failed_any rs rc rt) (hsa : sa = skipped_any rs rc rt) :
    ((page_teardown rs rc rt true kop (some ()) artifacts nodeid).2 =
      if fa || sa || kop then some (video_artifact_path artifacts nodeid) else none) ∧
    (∀ p, Ev.attachFile p ∈ (page_teardown rs rc rt true kop (some ()) artifacts nodeid).1 ↔
      ((fa || sa) = true ∧ p = video_artifact_path artifacts nodeid)) ∧
    ((fa || sa || kop) = false →
      Ev.deleteHandle ∈ (page_teardown rs rc rt true kop (some ()) artifacts nodeid).1 ∧
      (page_teardown rs rc rt true kop (some ()) artifacts nodeid).2 = none) ∧
    (fa = false → sa = false → kop = true →
      (page_teardown rs rc rt true kop (some ()) artifacts nodeid).2 =
        some (video_artifact_path artifacts nodeid) ∧
      ∀ p, Ev.attachFile p ∉ (page_teardown rs rc rt true kop (some ()) artifacts nodeid).1) := by
  subst hfa
  subst hsa
  cases hfa' : failed_any rs rc rt <;> cases hsa' : skipped_any rs rc rt <;> cases kop <;>
    simp +decide [page_teardown, finalize_video_artifact, hfa', hsa']

/-- Witness for C1: a test whose call phase failed, with `keepOnPass = false`,
gets its video saved, and the finalizer returns the video path. -/
theorem c1_video_keep_attach_policy_witness :
    (page_teardown none (some ⟨true, false, "failed"⟩) none true false (some ())
        "artifacts" "t").2 = some (video_artifact_path "artifacts" "t") := by
  have h := (c1_video_keep_attach_policy none (some ⟨true, false, "failed"⟩) none false
    "artifacts" "t" true false (by decide) (by decide)).1
  rw [h]
  decide

/-- Claim C2: every non-null video handle passed through
`finalize_video_artifact` is either explicitly persisted exactly once
(`save_as` called once) or deleted exactly once without persisting — never
both and never neither; moreover the underlying recording handle is always
released (`video.delete`) exactly once. -/
theorem c2_video_disposition_invariant (artifacts nodeid : String)
    (keep attach_on_keep : Bool) (video : Option Unit) (h : video.isSome = true) :
    ((persistedOnce (finalize_video_artifact video artifacts nodeid keep attach_on_keep).1 ∧
      ¬ discardedOnce (finalize_video_artifact video artifacts nodeid keep attach_on_keep).1) ∨
     (discardedOnce (finalize_video_artifact video artifacts nodeid keep attach_on_keep).1 ∧
      ¬ persistedOnce (finalize_video_artifact video artifacts nodeid keep attach_on_keep).1)) ∧
    (finalize_video_artifact video artifacts nodeid keep attach_on_keep).1.countP
      isDeleteEv = 1 := by
  cases video with
  | none => simp at h
  | some u =>
    cases keep <;> cases attach_on_keep <;>
      simp [finalize_video_artifact, persistedOnce, discardedOnce, isSaveEv, isDeleteEv,
        List.countP_cons, List.countP_nil]

/-- Witness for C2: a discarded handle (keep = false) is released exactly
once. -/
theorem c2_video_disposition_invariant_witness :
    (finalize_video_artifact (some ()) "artifacts" "t" false false).1.countP
      isDeleteEv = 1 :=
  (c2_video_disposition_invariant "artifacts" "t" false false (some ()) rfl).2

/-- Counterexample to claim C3: a test whose setup report is failed (and not
marked skipped) with no call and no teardown report yields `skipped_any =
false`, not `true` as the claim demands; the setup failure is counted in
`failed_any` instead. -/
theorem c3_setup_failed_counterexample :
    _is_failed ⟨true, false, "failed"⟩ = true ∧
    _is_skipped ⟨true, false, "failed"⟩ = false ∧
    skipped_any (some ⟨true, false, "failed"⟩) none none = false ∧
    failed_any (some ⟨true, false, "failed"⟩) none none = true := by
  decide

/-- Claim C3 (amended): `skipped_any` is true exactly when some existing
phase report is marked skipped (`rep.skipped` or `rep.outcome == "skipped"`);
a setup-failed test with no call report and no skipped-marked report yields
`skipped_any = false` and `failed_any = true` — there is no special
setup-failed clause. -/
theorem c3_skipped_any_characterization (rs rc rt : Option Report) :
    (skipped_any rs rc rt = true ↔
      ∃ r, r ∈ existing_reports rs rc rt ∧ _is_skipped r = true) ∧
    (∀ r : Report, rs = some r → r.failed = true → _is_skipped r = false →
      rc = none → (∀ r', rt = some r' → _is_skipped r' = false) →
      skipped_any rs rc rt = false ∧ failed_any rs rc rt = true) := by
  constructor
  · simp [skipped_any, List.any_eq_true]
  · rintro r rfl hf hns rfl hrt
    constructor
    · cases rt with
      | none => simp [skipped_any, existing_reports, hns]
      | some r' => simp [skipped_any, existing_reports, hns, hrt r' rfl]
    · simp [failed_any, existing_reports, _is_failed, hf]

/-- Witness for the amended C3 at a concrete setup-failed run. -/
theorem c3_skipped_any_characterization_witness :
    skipped_any (some ⟨true, false, "error"⟩) none none = false ∧
    failed_any (some ⟨true, false, "error"⟩) none none = true :=
  (c3_skipped_any_characterization (some ⟨true, false, "error"⟩) none none).2
    ⟨true, false, "error"⟩ rfl (by decide) (by decide) rfl
    (fun r' h => by cases h)

/-- Claim C7: in the context teardown with tracing started, if
`retainOnFailure` holds and no failure occurred the tracing stop discards the
trace (no save event for any path); otherwise the trace is saved to
`<artifacts>/traces/<sanitized nodeid>.zip`; a tracing-stop exception is
logged instead and never yields a save; context close is attempted
unconditionally afterward (also when the stop raised), and a close failure
only yields a log event. -/
theorem c7_context_teardown_tracing (retain last_failed stop_raises close_raises : Bool)
    (artifacts nodeid : String) :
    (retain = true → last_failed = false → stop_raises = false →
      Ev.tracingStopDiscard ∈
        context_teardown true retain last_failed true stop_raises close_raises artifacts nodeid ∧
      ∀ p, Ev.tracingStopSave p ∉
        context_teardown true retain last_failed true stop_raises close_raises artifacts nodeid) ∧
    (¬(retain = true ∧ last_failed = false) → stop_raises = false →
      Ev.tracingStopSave (_trace_path artifacts nodeid) ∈
        context_teardown true retain last_failed true stop_raises close_raises artifacts nodeid) ∧
    (stop_raises = true →
      Ev.logTraceStopFailure ∈
        context_teardown true retain last_failed true stop_raises close_raises artifacts nodeid ∧
      (∀ p, Ev.tracingStopSave p ∉
        context_teardown true retain last_failed true stop_raises close_raises artifacts nodeid) ∧
      Ev.tracingStopDiscard ∉
        context_teardown true retain last_failed true stop_raises close_raises artifacts nodeid) ∧
    Ev.contextClose ∈
      context_teardown true retain last_failed true stop_raises close_raises artifacts nodeid ∧
    (close_raises = true →
      Ev.logCloseFailure ∈
        context_teardown true retain last_failed true stop_raises close_raises artifacts nodeid) := by
  cases retain <;> cases last_failed <;> cases stop_raises <;> cases close_raises <;>
    simp [context_teardown]

/-- Witness for C7: with `retain-on-failure` and a passing test, the trace is
stopped without saving. -/
theorem c7_context_teardown_tracing_witness :
    Ev.tracingStopDiscard ∈
      context_teardown true true false true false false "artifacts" "t" :=
  ((c7_context_teardown_tracing true false false false "artifacts" "t").1 rfl rfl rfl).1

/-! Helper lemmas for the teardown ordering theorem. -/

/-- Every event of the page-fixture teardown belongs to a stage at most 2
(diagnostics, page close, video finalization). -/
lemma page_teardown_stage_le (rs rc rt : Option Report) (record kop : Bool)
    (video : Option Unit) (artifacts nodeid : String) :
    ∀ x ∈ ((page_teardown rs rc rt record kop video artifacts nodeid).1).map stage,
      x ≤ 2 := by
  cases h1 : failed_any rs rc rt <;> cases h2 : skipped_any rs rc rt <;>
    cases record <;> cases video <;> cases kop <;>
    simp +decide [page_teardown, finalize_video_artifact, stage, h1, h2]

/-- The page-fixture teardown performs its events in nondecreasing stage
order: diagnostics, then page close, then video finalization. -/
lemma page_teardown_stages_sorted (rs rc rt : Option Report) (record kop : Bool)
    (video : Option Unit) (artifacts nodeid : String) :
    List.Pairwise (fun a b : Nat => a ≤ b)
      (((page_teardown rs rc rt record kop video artifacts nodeid).1).map stage) := by
  cases h1 : failed_any rs rc rt <;> cases h2 : skipped_any rs rc rt <;>
    cases record <;> cases video <;> cases kop <;>
    simp +decide [page_teardown, finalize_video_artifact, stage, h1, h2]

/-- Every event of the context-fixture finalizer belongs to a stage at least 3
(tracing stop, context close). -/
lemma context_teardown_stage_ge (te retain lf ts sr cr : Bool)
    (artifacts nodeid : String) :
    ∀ x ∈ (context_teardown te retain lf ts sr cr artifacts nodeid).map stage,
      3 ≤ x := by
  cases te <;> cases retain <;> cases lf <;> cases ts <;> cases sr <;> cases cr <;>
    simp +decide [context_teardown, stage]

/-- The context-fixture finalizer performs its events in nondecreasing stage
order: tracing stop, then context close. -/
lemma context_teardown_stages_sorted (te retain lf ts sr cr : Bool)
    (artifacts nodeid : String) :
    List.Pairwise (fun a b : Nat => a ≤ b)
      ((context_teardown te retain lf ts sr cr artifacts nodeid).map stage) := by
  cases te <;> cases retain <;> cases lf <;> cases ts <;> cases sr <;> cases cr <;>
    simp +decide [context_teardown, stage]

/-- The page-fixture teardown always closes the page. -/
lemma page_teardown_has_closePage (rs rc rt : Option Report) (record kop : Bool)
    (video : Option Unit) (artifacts nodeid : String) :
    Ev.closePage ∈ (page_teardown rs rc rt record kop video artifacts nodeid).1 := by
  cases h1 : failed_any rs rc rt <;> cases h2 : skipped_any rs rc rt <;>
    cases record <;> cases video <;> cases kop <;>
    simp +decide [page_teardown, finalize_video_artifact, h1, h2]

/-- The page-fixture teardown releases every non-null video handle. -/
lemma page_teardown_has_delete (rs rc rt : Option Report) (record kop : Bool)
    (artifacts nodeid : String) :
    Ev.deleteHandle ∈ (page_teardown rs rc rt record kop (some ()) artifacts nodeid).1 := by
  cases h1 : failed_any rs rc rt <;> cases h2 : skipped_any rs rc rt <;>
    cases record <;> cases kop <;>
    simp +decide [page_teardown, finalize_video_artifact, h1, h2]

/-- The context-fixture finalizer always attempts the context close. -/
lemma context_teardown_has_close (te retain lf ts sr cr : Bool)
    (artifacts nodeid : String) :
    Ev.contextClose ∈ context_teardown te retain lf ts sr cr artifacts nodeid := by
  cases te <;> cases retain <;> cases lf <;> cases ts <;> cases sr <;> cases cr <;>
    simp [context_teardown]

/-- When tracing was started and the stop does not raise, the finalizer stops
tracing: it either discards or saves the trace. -/
lemma context_teardown_stops_tracing (retain lf cr : Bool) (artifacts nodeid : String) :
    Ev.tracingStopDiscard ∈ context_teardown true retain lf true false cr artifacts nodeid ∨
    Ev.tracingStopSave (_trace_path artifacts nodeid) ∈
      context_teardown true retain lf true false cr artifacts nodeid := by
  cases retain <;> cases lf <;> cases cr <;> simp [context_teardown]

/-- Counterexample to claim C4: in a concrete failing run with video and
tracing enabled, the full teardown trace finalizes the video (save, attach,
delete) BEFORE stopping tracing and closing the context — the page-fixture
teardown runs before the context-fixture finalizer — contradicting the
claimed order "… stop tracing → close context → finalize video". -/
theorem c4_teardown_order_counterexample :
    full_teardown none (some ⟨true, false, "failed"⟩) none true false (some ())
        true false true false false "artifacts" "t" =
      [Ev.captureScreenshot, Ev.captureHtml, Ev.closePage,
       Ev.saveAs "artifacts/videos/t.webm", Ev.attachFile "artifacts/videos/t.webm",
       Ev.deleteHandle, Ev.tracingStopSave "artifacts/traces/t.zip",
       Ev.contextClose] ∧
    (full_teardown none (some ⟨true, false, "failed"⟩) none true false (some ())
        true false true false false "artifacts" "t").indexOf Ev.deleteHandle <
      (full_teardown none (some ⟨true, false, "failed"⟩) none true false (some ())
        true false true false false "artifacts" "t").indexOf Ev.contextClose := by
  decide

/-- Claim C4 (amended): the teardown steps occur in the strict order capture
diagnostics (screenshot/HTML) → close page → finalize video → stop tracing →
close context; video finalization happens BEFORE tracing stop and context
close, because the page fixture (which finalizes the video) is torn down
before the context fixture.  Stated as: the stages of the full teardown trace
are nondecreasing, and the trace contains the expected events. -/
theorem c4_teardown_order (rs rc rt : Option Report) (record kop : Bool)
    (video : Option Unit) (te retain ts sr cr : Bool) (artifacts nodeid : String) :
    List.Pairwise (fun a b : Nat => a ≤ b)
      ((full_teardown rs rc rt record kop video te retain ts sr cr
          artifacts nodeid).map stage) ∧
    Ev.closePage ∈ full_teardown rs rc rt record kop video te retain ts sr cr
      artifacts nodeid ∧
    Ev.contextClose ∈ full_teardown rs rc rt record kop video te retain ts sr cr
      artifacts nodeid ∧
    (video = some () →
      Ev.deleteHandle ∈ full_teardown rs rc rt record kop video te retain ts sr cr
        artifacts nodeid) ∧
    (te = true → ts = true → sr = false →
      Ev.tracingStopDiscard ∈ full_teardown rs rc rt record kop video te retain ts sr cr
          artifacts nodeid ∨
      Ev.tracingStopSave (_trace_path artifacts nodeid) ∈
        full_teardown rs rc rt record kop video te retain ts sr cr artifacts nodeid) := by
  refine ⟨?_, ?_, ?_, ?_, ?_⟩
  · rw [full_teardown, List.map_append, List.pairwise_append]
    refine ⟨page_teardown_stages_sorted rs rc rt record kop video artifacts nodeid,
      context_teardown_stages_sorted te retain (failed_any rs rc rt) ts sr cr
        artifacts nodeid, ?_⟩
    intro a ha b hb
    have hle := page_teardown_stage_le rs rc rt record kop video artifacts nodeid a ha
    have hge := context_teardown_stage_ge te retain (failed_any rs rc rt) ts sr cr
      artifacts nodeid b hb
    omega
  · exact List.mem_append_left _
      (page_teardown_has_closePage rs rc rt record kop video artifacts nodeid)
  · exact List.mem_append_right _
      (context_teardown_has_close te retain (failed_any rs rc rt) ts sr cr
        artifacts nodeid)
  · rintro rfl
    exact List.mem_append_left _
      (page_teardown_has_delete rs rc rt record kop artifacts nodeid)
  · rintro rfl rfl rfl
    rcases context_teardown_stops_tracing retain (failed_any rs rc rt) cr
        artifacts nodeid with h | h
    · exact Or.inl (List.mem_append_right _ h)
    · exact Or.inr (List.mem_append_right _ h)

/-- Witness for the amended C4 at a concrete passing run with video and
tracing enabled. -/
theorem c4_teardown_order_witness :
    Ev.deleteHandle ∈ full_teardown none (some ⟨false, false, "passed"⟩) none
      true false (some ()) true true true false false "artifacts" "t" ∧
    (Ev.tracingStopDiscard ∈ full_teardown none (some ⟨false, false, "passed"⟩) none
        true false (some ()) true true true false false "artifacts" "t" ∨
     Ev.tracingStopSave (_trace_path "artifacts" "t") ∈
       full_teardown none (some ⟨false, false, "passed"⟩) none
        true false (some ()) true true true false false "artifacts" "t") :=
  ⟨(c4_teardown_order none (some ⟨false, false, "passed"⟩) none true false (some ())
      true true true false false "artifacts" "t").2.2.2.1 rfl,
   (c4_teardown_order none (some ⟨false, false, "passed"⟩) none true false (some ())
      true true true false false "artifacts" "t").2.2.2.2 rfl rfl rfl⟩
